import Mathlib

/-!
Verification of the instance-lifecycle orchestrator in `src/scw/scw.py`.

The Python program shells out to the `scw` CLI (provider port), `ssh`/`scp`
(remote execution port) and a JSON state file (persisted lifecycle state).
We embed it shallowly: every external call is answered by an oracle value
supplied in an environment record, and each command-level function
(`start`, `stop`, `upload`, `download`) is a pure function from the stored
state and that environment to a `RunResult`: the ordered trace of observable
events (provider calls, ssh/scp invocations, state writes, sleeps, prints)
together with the final stored state and how the process ended (normal
return, `sys.exit(code)`, an uncaught Python exception, or divergence of an
unbounded polling loop, signalled when the oracle's response list is
exhausted).
-/

namespace Scw

/-- Configuration constant `INSTANCE_TYPE` from the source. -/
def INSTANCE_TYPE : String := "H100-1-80G"

/-- `str(LOCAL_WORK_DIR)` where `LOCAL_WORK_DIR = Path("./work")`
(Python's `Path` normalises `./work` to `work`). -/
def LOCAL_WORK_DIR : String := "work"

/-- Configuration constant `REMOTE_WORK_DIR` from the source. -/
def REMOTE_WORK_DIR : String := "/scratch/work"

/-- A single quote character, used inside modelled message strings. -/
def sq : String := String.mk [Char.ofNat 39]

/-- Exceptions the embedded fragments can raise (uncaught, they abort the
process with a non-zero status). -/
inductive PyError where
  | jsonDecodeError
  | keyError (k : String)
deriving DecidableEq, Repr

/-- Result of `subprocess.run` for an `ssh` invocation (captured). -/
structure SshResp where
  returncode : Int
  stdout : String
  stderr : String
deriving DecidableEq, Repr

/-- Result of an `scp` invocation (`capture=False`: no captured output;
Python's `result.stderr` is `None` there, printed as the text "None"). -/
structure ScpResp where
  returncode : Int
deriving DecidableEq, Repr

/-- Result of a `scw` CLI call whose stdout is never parsed
(`stop`, `delete`). -/
structure CliResp where
  returncode : Int
  stderr : String
deriving DecidableEq, Repr

/-- Result of `scw instance server get ... -o json`: the stdout either
parses (`json.loads`) as a JSON object, modelled as a string-to-string
association list restricted to the fields the program reads, or it does not
parse (`none`), in which case `json.loads` raises. -/
structure GetServerResp where
  returncode : Int
  stdoutJson : Option (List (String × String))
deriving DecidableEq, Repr

/-- The `server` sub-object of one entry of `scw instance ip list`. -/
structure IpInfoServer where
  id : String
deriving DecidableEq, Repr

/-- One entry of the JSON array returned by `scw instance ip list`. -/
structure IpInfo where
  server : Option IpInfoServer
  address : Option String
deriving DecidableEq, Repr

/-- Result of `scw instance ip list -o json`. -/
structure IpListResp where
  returncode : Int
  stdoutJson : Option (List IpInfo)
deriving DecidableEq, Repr

/-- Result of `scw instance server create ... -o json`. -/
structure CreateResp where
  returncode : Int
  stdoutJson : Option (List (String × String))
  stderr : String
deriving DecidableEq, Repr

/-- The Lifecycle Record persisted by `save_state`:
`{"id": instance_id, "ip": instance_ip}`. -/
structure StateRec where
  id : String
  ip : String
deriving DecidableEq, Repr

/-- The state file: `none` models an absent `STATE_FILE`. -/
def Store : Type := Option StateRec
deriving DecidableEq, Repr

/-- `save_state(instance_id, instance_ip)`: write the record. -/
def save_state (instance_id instance_ip : String) (_s : Store) : Store :=
  some ⟨instance_id, instance_ip⟩

/-- `load_state()`: return the parsed record if the file exists, else `None`. -/
def load_state (s : Store) : Option StateRec := s

/-- `delete_state()`: `STATE_FILE.unlink(missing_ok=True)`. -/
def delete_state (_s : Store) : Store := none

/-- Python `dict.get(k, default)` on a JSON object. -/
def dictGet (d : List (String × String)) (k dflt : String) : String :=
  match d.find? (fun p => p.1 = k) with
  | some p => p.2
  | none => dflt

/-- Python `d[k]` on a JSON object: raises `KeyError` when absent. -/
def dictGetE (d : List (String × String)) (k : String) : Except PyError String :=
  match d.find? (fun p => p.1 = k) with
  | some p => .ok p.2
  | none => .error (.keyError k)

/-- `get_instance_state(instance_id)`: runs the CLI, then
`json.loads(result.stdout)` (raising on unparseable output — the
returncode is never checked) and `data.get("state", "")`. -/
def get_instance_state (resp : GetServerResp) : Except PyError String :=
  match resp.stdoutJson with
  | none => .error .jsonDecodeError
  | some data => .ok (dictGet data "state" "")

/-- Scan of the ip list: `if server and server.get("id") == instance_id:
return ip_info.get("address")` — returns on the first matching entry. -/
def findIpFor (instance_id : String) : List IpInfo → Option String
  | [] => none
  | info :: rest =>
    match info.server with
    | some s =>
      if s.id = instance_id then info.address else findIpFor instance_id rest
    | none => findIpFor instance_id rest

/-- `get_instance_ip(instance_id)`: a non-zero returncode short-circuits to
`None` before any parsing; otherwise the stdout is parsed (raising if
unparseable) and scanned. -/
def get_instance_ip (instance_id : String) (resp : IpListResp) :
    Except PyError (Option String) :=
  if resp.returncode ≠ 0 then .ok none
  else
    match resp.stdoutJson with
    | none => .error .jsonDecodeError
    | some ips => .ok (findIpFor instance_id ips)

/-- Python truthiness of an `Optional[str]`: `None` and `""` are falsy. -/
def strOptTruthy : Option String → Bool
  | some s => s ≠ ""
  | none => false

/-! ## Observable events

Every external side effect of a run, in program order. -/

/-- Observable side effects of a command run. -/
inductive Event where
  /-- `scw instance server create ...` -/
  | provCreate
  /-- `scw instance server get ...` (one power-state query) -/
  | provGetServer
  /-- `scw instance ip list ...` (one address query) -/
  | provIpList
  /-- `scw instance server stop ... --wait` -/
  | provStop
  /-- `scw instance server delete ...` -/
  | provDelete
  /-- `ssh root@ip cmd` -/
  | sshExec (ip cmd : String)
  /-- `ssh-keygen -R ip` (from `remove_from_known_hosts`) -/
  | sshKeygenR (ip : String)
  /-- `scp [-r] local root@ip:remote` -/
  | scpTo (localPath remotePath ip : String) (recursive : Bool)
  /-- `scp [-r] root@ip:remote local` -/
  | scpFrom (remotePath localPath ip : String) (recursive : Bool)
  /-- `save_state(id, ip)` writing the state file -/
  | stateSave (id ip : String)
  /-- `delete_state()` removing the state file -/
  | stateDelete
  /-- `LOCAL_WORK_DIR.mkdir(parents=True, exist_ok=True)` -/
  | localMkdir (path : String)
  /-- `time.sleep(secs)` -/
  | sleep (secs : Nat)
  /-- console output -/
  | print (s : String)
  /-- the blocking foreground `ssh -N -L ...` tunnel -/
  | tunnel (ip : String)
deriving DecidableEq, Repr

/-- How a command run ended. -/
inductive Outcome where
  /-- the Python function returned normally (process status 0) -/
  | finished
  /-- `sys.exit(code)` -/
  | exited (code : Nat)
  /-- an uncaught exception aborted the process -/
  | raised (e : PyError)
  /-- an unbounded polling loop was still running when its oracle's
  response list ran out -/
  | diverged
deriving DecidableEq, Repr

/-- Trace, final stored state, and termination of one command run. -/
structure RunResult where
  trace : List Event
  store : Store
  outcome : Outcome
deriving DecidableEq, Repr

/-- How one of the unbounded polling loops left its oracle. -/
inductive LoopEnd (α : Type) where
  | done (a : α)
  | raised (e : PyError)
  | exhausted
deriving DecidableEq, Repr

/-! ## Polling loops -/

/-- Body of `wait_for_running`: query the power state; `"running"` ends the
loop, any other parsed state prints a dot and sleeps 5 before retrying; an
unparseable response raises out of the loop. -/
def wait_for_running_loop : List GetServerResp → List Event × LoopEnd Unit
  | [] => ([], .exhausted)
  | r :: rest =>
    match get_instance_state r with
    | .error e => ([.provGetServer], .raised e)
    | .ok s =>
      if s = "running" then
        ([.provGetServer, .print " Ready!"], .done ())
      else
        let t := wait_for_running_loop rest
        (.provGetServer :: .print "." :: .sleep 5 :: t.1, t.2)

/-- `wait_for_running(instance_id)` including its banner print. -/
def wait_for_running (rs : List GetServerResp) : List Event × LoopEnd Unit :=
  let t := wait_for_running_loop rs
  (.print "Waiting for instance to start" :: t.1, t.2)

/-- Body of `wait_for_ip`: query the ip list; a truthy address ends the
loop, `None`/empty (including the non-zero-returncode case of
`get_instance_ip`) prints a dot and sleeps 5 before retrying; an
unparseable zero-returncode response raises. -/
def wait_for_ip_loop (instance_id : String) :
    List IpListResp → List Event × LoopEnd String
  | [] => ([], .exhausted)
  | r :: rest =>
    match get_instance_ip instance_id r with
    | .error e => ([.provIpList], .raised e)
    | .ok ipOpt =>
      if strOptTruthy ipOpt then
        ([.provIpList, .print (" " ++ ipOpt.getD "")], .done (ipOpt.getD ""))
      else
        let t := wait_for_ip_loop instance_id rest
        (.provIpList :: .print "." :: .sleep 5 :: t.1, t.2)

/-- `wait_for_ip(instance_id)` including its banner print. -/
def wait_for_ip (instance_id : String) (rs : List IpListResp) :
    List Event × LoopEnd String :=
  let t := wait_for_ip_loop instance_id rs
  (.print "Waiting for IP assignment" :: t.1, t.2)

/-- Body of `wait_for_ssh`: probe `echo ok`; exit code 0 ends the loop,
anything else prints a dot and sleeps 5 before retrying. -/
def wait_for_ssh_loop (instance_ip : String) :
    List SshResp → List Event × LoopEnd Unit
  | [] => ([], .exhausted)
  | r :: rest =>
    if r.returncode = 0 then
      ([.sshExec instance_ip "echo ok", .print " Ready!"], .done ())
    else
      let t := wait_for_ssh_loop instance_ip rest
      (.sshExec instance_ip "echo ok" :: .print "." :: .sleep 5 :: t.1, t.2)

/-- `wait_for_ssh(instance_ip)` including its banner print. -/
def wait_for_ssh (instance_ip : String) (rs : List SshResp) :
    List Event × LoopEnd Unit :=
  let t := wait_for_ssh_loop instance_ip rs
  (.print "Waiting for SSH" :: t.1, t.2)

/-! ## Token extraction (`re.search(r'token=([a-zA-Z0-9_-]+)', log)`) -/

/-- The character class `[a-zA-Z0-9_-]`. -/
def isTokenChar (c : Char) : Bool := c.isAlphanum || c = '_' || c = '-'

/-- The literal part `token=` of the pattern. -/
def tokenPat : List Char := ['t', 'o', 'k', 'e', 'n', '=']

/-- `n` is a leading segment of `l`. -/
def leadsWith : List Char → List Char → Bool
  | [], _ => true
  | _ :: _, [] => false
  | a :: as, b :: bs => a = b && leadsWith as bs

/-- `n` occurs as a contiguous run somewhere in `l`
(Python `n in l` on strings). -/
def hasSeq (n : List Char) : List Char → Bool
  | [] => leadsWith n []
  | c :: rest => leadsWith n (c :: rest) || hasSeq n rest

/-- Python `needle in hay` for strings. -/
def containsSubstr (needle hay : String) : Bool :=
  hasSeq needle.data hay.data

/-- Whether at least one token-class character starts the list. -/
def headIsTokenChar : List Char → Bool
  | [] => false
  | d :: _ => isTokenChar d

/-- Whether the regex `token=([a-zA-Z0-9_-]+)` matches at the head of `s`:
the literal `token=` followed by at least one class character. -/
def matchesHead (s : List Char) : Bool :=
  leadsWith tokenPat s && headIsTokenChar (s.drop 6)

/-- Whether the regex matches at offset `i` of `s`. -/
def matchesAt (s : List Char) (i : Nat) : Bool :=
  matchesHead (s.drop i)

/-- `re.search` scanning: try each offset left to right; at the leftmost
match, the group is the maximal run of class characters after `token=`. -/
def findTokenFrom : List Char → Option (List Char)
  | [] => none
  | c :: rest =>
    if matchesHead (c :: rest) then
      some (((c :: rest).drop 6).takeWhile isTokenChar)
    else findTokenFrom rest

/-- `extract_jupyter_token(log_output)`: the group of the leftmost match,
or `""` when there is no match. -/
def extract_jupyter_token (log_output : String) : String :=
  match findTokenFrom log_output.data with
  | some cs => String.mk cs
  | none => ""

/-! ## Remaining helpers of the source -/

/-- `REMOTE_SETUP_SCRIPT` after the `.format(venv_name="gpu_venv",
port=8888)` substitution. -/
def REMOTE_SETUP_SCRIPT : String :=
  "\nset -e\napt update -y\napt upgrade -y\napt install -y python3.12-venv jupyter-notebook\n\ncd /scratch\npython3 -m venv gpu_venv\nsource gpu_venv/bin/activate\npip install --upgrade pip\npip install jupyterlab ipykernel\npython3 -m ipykernel install --user --name=gpu_venv --display-name \"Python (gpu_venv)\"\nsetsid jupyter notebook --no-browser --port=8888 --allow-root --ip=0.0.0.0 --notebook-dir=/scratch > /tmp/jupyter.log 2>&1 < /dev/null &\nsleep 5\ncat /tmp/jupyter.log\n"

/-- `remove_from_known_hosts(ip)`: runs `ssh-keygen -R ip` and prints only
when `~/.ssh/known_hosts` exists. -/
def remove_from_known_hosts (knownHostsExists : Bool) (ip : String) :
    List Event :=
  if knownHostsExists then
    [.sshKeygenR ip, .print ("Removed " ++ ip ++ " from known_hosts")]
  else []

/-- Oracle for `upload_work_dir`: does `./work` exist locally, and the
responses to the remote `mkdir -p` and the recursive `scp`. -/
structure UploadDirEnv where
  localWorkDirExists : Bool
  mkdirResp : SshResp
  scpResp : ScpResp
deriving DecidableEq, Repr

/-- `upload_work_dir(instance_ip)`: skip with a notice when `./work` is
absent; otherwise `mkdir -p` remotely and recursively copy the contents;
a failed copy only prints a warning. -/
def upload_work_dir (env : UploadDirEnv) (instance_ip : String) :
    List Event :=
  if env.localWorkDirExists = false then
    [.print ("Local work directory " ++ LOCAL_WORK_DIR ++
      " does not exist, skipping upload.")]
  else
    [.print ("Uploading " ++ LOCAL_WORK_DIR ++ " to " ++ REMOTE_WORK_DIR ++
       "..."),
     .sshExec instance_ip ("mkdir -p " ++ REMOTE_WORK_DIR),
     .scpTo (LOCAL_WORK_DIR ++ "/.") REMOTE_WORK_DIR instance_ip true] ++
    (if env.scpResp.returncode ≠ 0 then
       [.print "Warning: Failed to upload work directory: None"]
     else [.print "Work directory uploaded successfully."])

/-- Oracle for `download_work_dir`: the response to the remote
`test -d ... && echo exists` check and to the recursive `scp`. -/
structure DownloadDirEnv where
  checkResp : SshResp
  scpResp : ScpResp
deriving DecidableEq, Repr

/-- `download_work_dir(instance_ip)`: ensure `./work` exists locally,
check remote directory existence (skip with a notice when the check's
stdout lacks "exists"), then recursively copy the contents; a failed copy
only prints a warning. -/
def download_work_dir (env : DownloadDirEnv) (instance_ip : String) :
    List Event :=
  [.localMkdir LOCAL_WORK_DIR,
   .print ("Downloading " ++ REMOTE_WORK_DIR ++ " to " ++ LOCAL_WORK_DIR ++
     "..."),
   .sshExec instance_ip ("test -d " ++ REMOTE_WORK_DIR ++ " && echo exists")] ++
  (if containsSubstr "exists" env.checkResp.stdout = false then
     [.print ("Remote work directory " ++ REMOTE_WORK_DIR ++
       " does not exist, skipping download.")]
   else
     [.scpFrom (REMOTE_WORK_DIR ++ "/.") LOCAL_WORK_DIR instance_ip true] ++
     (if env.scpResp.returncode ≠ 0 then
        [.print "Warning: Failed to download work directory: None"]
      else [.print "Work directory downloaded successfully."]))

/-- Kind of the local path `./work/<filename>` as Python's
`Path.exists()` / `Path.is_dir()` report it. -/
inductive LocalKind where
  | missing
  | file
  | dir
deriving DecidableEq, Repr

/-- Oracle for the single-path `upload` command. -/
structure UploadEnv where
  localKind : LocalKind
  mkdirResp : SshResp
  scpResp : ScpResp
deriving DecidableEq, Repr

/-- `upload(filename)`: require a Lifecycle Record; require
`./work/<filename>` to exist; `mkdir -p` remotely; copy, recursively iff
the local path is a directory; a non-zero copy exit is fatal
(`sys.exit(1)`). -/
def upload (st : Store) (filename : String) (env : UploadEnv) : RunResult :=
  match load_state st with
  | none =>
    ⟨[.print ("No running instance found. Run " ++ sq ++ "start" ++ sq ++
       " first.")], st, .exited 1⟩
  | some state =>
    let instance_ip := state.ip
    let local_path := LOCAL_WORK_DIR ++ "/" ++ filename
    let remote_path := REMOTE_WORK_DIR ++ "/" ++ filename
    if env.localKind = .missing then
      ⟨[.print ("Error: " ++ local_path ++ " does not exist.")], st,
       .exited 1⟩
    else
      let is_dir := env.localKind = LocalKind.dir
      let t :=
        [.sshExec instance_ip ("mkdir -p " ++ REMOTE_WORK_DIR),
         .print ("Uploading " ++ local_path ++ " to " ++ remote_path ++
           "..."),
         .scpTo local_path remote_path instance_ip is_dir]
      if env.scpResp.returncode ≠ 0 then
        ⟨t ++ [.print "Upload failed: None"], st, .exited 1⟩
      else
        ⟨t ++ [.print "Upload complete."], st, .finished⟩

/-- Oracle for the single-path `download` command. -/
structure DownloadEnv where
  checkResp : SshResp
  scpResp : ScpResp
deriving DecidableEq, Repr

/-- `download(filename)`: require a Lifecycle Record; ensure `./work`
exists locally; remotely `test -d` the path and copy, recursively iff the
check's stdout contains "isdir"; a non-zero copy exit is fatal. -/
def download (st : Store) (filename : String) (env : DownloadEnv) :
    RunResult :=
  match load_state st with
  | none =>
    ⟨[.print ("No running instance found. Run " ++ sq ++ "start" ++ sq ++
       " first.")], st, .exited 1⟩
  | some state =>
    let instance_ip := state.ip
    let remote_path := REMOTE_WORK_DIR ++ "/" ++ filename
    let local_path := LOCAL_WORK_DIR ++ "/" ++ filename
    let is_dir := containsSubstr "isdir" env.checkResp.stdout
    let t :=
      [.localMkdir LOCAL_WORK_DIR,
       .sshExec instance_ip ("test -d " ++ remote_path ++ " && echo isdir"),
       .print ("Downloading " ++ remote_path ++ " to " ++ local_path ++
         "..."),
       .scpFrom remote_path local_path instance_ip is_dir]
    if env.scpResp.returncode ≠ 0 then
      ⟨t ++ [.print "Download failed: None"], st, .exited 1⟩
    else
      ⟨t ++ [.print "Download complete."], st, .finished⟩

/-! ## The `start` command -/

/-- Oracle for one `start` run: the create response, then the response
streams consumed by the three polling loops, the known-hosts flag, the
bulk-upload oracle, and the bootstrap (`REMOTE_SETUP_SCRIPT`) response. -/
structure StartEnv where
  createResp : CreateResp
  powerResps : List GetServerResp
  ipResps : List IpListResp
  knownHostsExists : Bool
  sshResps : List SshResp
  updEnv : UploadDirEnv
  setupResp : SshResp
deriving Repr

/-- The fixed prints around `SETUP COMPLETE` and the tunnel start. -/
def startBanner (instance_id instance_ip token : String) : List Event :=
  [.print ("\n" ++ String.mk (List.replicate 60 '=')),
   .print "SETUP COMPLETE",
   .print (String.mk (List.replicate 60 '=')),
   .print ("\nInstance ID: " ++ instance_id),
   .print ("Instance IP: " ++ instance_ip),
   .print "\nOpen in browser:"] ++
  (if token ≠ "" then
     [.print ("  http://localhost:8888/?token=" ++ token)]
   else [.print "  http://localhost:8888"]) ++
  [.print (String.mk (List.replicate 60 '=')),
   .print ("\nStarting SSH tunnel to " ++ instance_ip ++ "..."),
   .print ("Press Ctrl+C to disconnect, then run " ++ sq ++ "./scw.py stop" ++
     sq ++ " to terminate instance.\n"),
   .tunnel instance_ip]

/-- `start()`: refuse when a record exists; create the instance (non-zero
exit fatal, unparseable stdout or missing `"id"` raises); poll power state,
then address; clear known-hosts; only then `save_state`; poll ssh; bulk
upload (best effort); run the setup script (non-zero exit fatal); extract
the token and open the tunnel. -/
def start (st : Store) (env : StartEnv) : RunResult :=
  match load_state st with
  | some state =>
    ⟨[.print ("Instance already exists: " ++ state.id ++ " (" ++ state.ip ++
       ")"),
      .print ("Run " ++ sq ++ "stop" ++ sq ++ " first to terminate it.")],
     st, .exited 1⟩
  | none =>
    let t0 := [.print ("Creating " ++ INSTANCE_TYPE ++ " instance..."),
               .provCreate]
    if env.createResp.returncode ≠ 0 then
      ⟨t0 ++ [.print ("Failed to create instance: " ++ env.createResp.stderr)],
       st, .exited 1⟩
    else
      match env.createResp.stdoutJson with
      | none => ⟨t0, st, .raised .jsonDecodeError⟩
      | some data =>
        match dictGetE data "id" with
        | .error e => ⟨t0, st, .raised e⟩
        | .ok instance_id =>
          let t1 := t0 ++ [.print ("Instance ID: " ++ instance_id)]
          let w := wait_for_running env.powerResps
          match w.2 with
          | .raised e => ⟨t1 ++ w.1, st, .raised e⟩
          | .exhausted => ⟨t1 ++ w.1, st, .diverged⟩
          | .done _ =>
            let wi := wait_for_ip instance_id env.ipResps
            match wi.2 with
            | .raised e => ⟨t1 ++ w.1 ++ wi.1, st, .raised e⟩
            | .exhausted => ⟨t1 ++ w.1 ++ wi.1, st, .diverged⟩
            | .done instance_ip =>
              let t2 := t1 ++ w.1 ++ wi.1 ++
                remove_from_known_hosts env.knownHostsExists instance_ip
              let st1 := save_state instance_id instance_ip st
              let t3 := t2 ++ [.stateSave instance_id instance_ip]
              let ws := wait_for_ssh instance_ip env.sshResps
              match ws.2 with
              | .raised e => ⟨t3 ++ ws.1, st1, .raised e⟩
              | .exhausted => ⟨t3 ++ ws.1, st1, .diverged⟩
              | .done _ =>
                let t4 := t3 ++ ws.1 ++ upload_work_dir env.updEnv instance_ip
                let t5 := t4 ++
                  [.print "Setting up instance (apt upgrade, venv, jupyter)...",
                   .sshExec instance_ip REMOTE_SETUP_SCRIPT]
                if env.setupResp.returncode ≠ 0 then
                  ⟨t5 ++ [.print ("Setup failed: " ++ env.setupResp.stderr)],
                   st1, .exited 1⟩
                else
                  let token := extract_jupyter_token env.setupResp.stdout
                  ⟨t5 ++ startBanner instance_id instance_ip token, st1,
                   .finished⟩

/-! ## The `stop` command -/

/-- Oracle for one `stop` run. -/
structure StopEnv where
  dl : DownloadDirEnv
  knownHostsExists : Bool
  stopResp : CliResp
  deleteResp : CliResp
deriving DecidableEq, Repr

/-- `stop()`: absence of a record is already-clean success (`sys.exit(0)`);
otherwise bulk-download first (when the stored ip is truthy), clear
known-hosts, `scw stop` and `scw delete` (both best effort, warnings only),
and delete the record unconditionally as the final step. -/
def stop (st : Store) (env : StopEnv) : RunResult :=
  match load_state st with
  | none => ⟨[.print "No instance found. Nothing to stop."], st, .exited 0⟩
  | some state =>
    let instance_id := state.id
    let instance_ip := state.ip
    let t1 := if instance_ip ≠ "" then download_work_dir env.dl instance_ip
              else []
    let t2 := t1 ++
      [.print ("Stopping and deleting instance " ++ instance_id ++ "...")] ++
      (if instance_ip ≠ "" then
         remove_from_known_hosts env.knownHostsExists instance_ip
       else []) ++
      [.print "Stopping instance...", .provStop] ++
      (if env.stopResp.returncode ≠ 0 then
         [.print ("Warning: Stop may have failed: " ++ env.stopResp.stderr)]
       else []) ++
      [.print "Deleting instance...", .provDelete] ++
      (if env.deleteResp.returncode ≠ 0 then
         [.print ("Warning: Delete may have failed: " ++
           env.deleteResp.stderr)]
       else []) ++
      [.stateDelete, .print "Instance deleted. State cleared."]
    ⟨t2, delete_state st, .finished⟩

/-! ## Trace observations -/

/-- Any call into the provider control plane. -/
def isProviderCall : Event → Bool
  | .provCreate | .provGetServer | .provIpList | .provStop | .provDelete =>
    true
  | _ => false

/-- A power-state query. -/
def isProvGetServer : Event → Bool
  | .provGetServer => true
  | _ => false

/-- A write of the Lifecycle Record. -/
def isStateSave : Event → Bool
  | .stateSave _ _ => true
  | _ => false

/-- A removal of the Lifecycle Record. -/
def isStateDelete : Event → Bool
  | .stateDelete => true
  | _ => false

/-- A remote command execution (`ssh_run`). -/
def isSshExec : Event → Bool
  | .sshExec _ _ => true
  | _ => false

/-- An upload transfer (`scp_to_instance`). -/
def isScpTo : Event → Bool
  | .scpTo _ _ _ _ => true
  | _ => false

/-- A download transfer (`scp_from_instance`). -/
def isScpFrom : Event → Bool
  | .scpFrom _ _ _ _ => true
  | _ => false

/-- The blocking tunnel session. -/
def isTunnel : Event → Bool
  | .tunnel _ => true
  | _ => false

/-- A destructive provider call of teardown (`stop` or `delete`). -/
def isDestroyCall : Event → Bool
  | .provStop | .provDelete => true
  | _ => false

/-- A transport event of the bulk download (the remote existence check or
the copy itself). -/
def isDlTransport (e : Event) : Bool := isSshExec e || isScpFrom e

/-- A step of `start` that runs after the record should exist: remote
shell traffic (reachability probes, sync, bootstrap) or the tunnel. -/
def isPostSaveStep (e : Event) : Bool :=
  isSshExec e || isScpTo e || isScpFrom e || isTunnel e

/-- Events whose kind can occur before the record is saved in `start`:
console output, sleeps, the create/get/list provider calls, and the
known-hosts cleanup. -/
def isPassive : Event → Bool
  | .print _ | .sleep _ | .provCreate | .provGetServer | .provIpList
  | .sshKeygenR _ => true
  | _ => false

/-- The events of a trace strictly before the first event satisfying `p`
(the whole trace when no event does). -/
def eventsBefore (p : Event → Bool) (t : List Event) : List Event :=
  t.takeWhile (fun e => p e = false)

/-- The events of a trace from the first event satisfying `p` on
(empty when no event does). -/
def eventsFrom (p : Event → Bool) (t : List Event) : List Event :=
  t.dropWhile (fun e => p e = false)

/-- The `recursive` flags of the upload transfers of a trace, in order. -/
def scpToFlags (t : List Event) : List Bool :=
  t.filterMap fun e =>
    match e with
    | .scpTo _ _ _ r => some r
    | _ => none

/-- The `recursive` flags of the download transfers of a trace, in order. -/
def scpFromFlags (t : List Event) : List Bool :=
  t.filterMap fun e =>
    match e with
    | .scpFrom _ _ _ r => some r
    | _ => none

/-! ## Concrete test fixtures -/

/-- A provider response reporting power state "pending". -/
def pendingResp : GetServerResp := ⟨0, some [("state", "pending")]⟩

/-- A provider response reporting power state "running". -/
def runningResp : GetServerResp := ⟨0, some [("state", "running")]⟩

/-- The character list of `token=abc123XYZ_-`. -/
def tokMid : List Char :=
  ['t', 'o', 'k', 'e', 'n', '=', 'a', 'b', 'c', '1', '2', '3', 'X', 'Y',
   'Z', '_', '-']

/-- The character list of the expected group `abc123XYZ_-`. -/
def tokGroup : List Char :=
  ['a', 'b', 'c', '1', '2', '3', 'X', 'Y', 'Z', '_', '-']

/-- A fully successful `start` oracle: create returns `i-1`, the instance
is immediately running with address `10.0.0.5`, ssh answers at once, the
local work directory is absent, and the setup script succeeds. -/
def c1Env : StartEnv :=
  { createResp := ⟨0, some [("id", "i-1")], ""⟩
    powerResps := [runningResp]
    ipResps := [⟨0, some [⟨some ⟨"i-1"⟩, some "10.0.0.5"⟩]⟩]
    knownHostsExists := false
    sshResps := [⟨0, "ok", ""⟩]
    updEnv := ⟨false, ⟨0, "", ""⟩, ⟨0⟩⟩
    setupResp := ⟨0, "token=tok123", ""⟩ }

/-! ## Helper lemmas -/

theorem takeWhile_append_of_all {α : Type} (p : α → Bool) {l1 : List α}
    (l2 : List α) (h : l1.all p = true) :
    (l1 ++ l2).takeWhile p = l1 ++ l2.takeWhile p := by
  induction l1 with
  | nil => simp
  | cons a as ih =>
    simp only [List.all_cons, Bool.and_eq_true] at h
    simp [List.takeWhile_cons, h.1, ih h.2]

theorem dropWhile_append_of_all {α : Type} (p : α → Bool) {l1 : List α}
    (l2 : List α) (h : l1.all p = true) :
    (l1 ++ l2).dropWhile p = l2.dropWhile p := by
  induction l1 with
  | nil => simp
  | cons a as ih =>
    simp only [List.all_cons, Bool.and_eq_true] at h
    simp [List.dropWhile_cons, h.1, ih h.2]

theorem all_of_imp {α : Type} {p q : α → Bool} {l : List α}
    (h : l.all p = true) (himp : ∀ a, p a = true → q a = true) :
    l.all q = true := by
  induction l with
  | nil => simp
  | cons a as ih =>
    simp only [List.all_cons, Bool.and_eq_true] at h ⊢
    exact ⟨himp a h.1, ih h.2⟩

/-- Every event emitted inside the power-state polling loop is passive. -/
theorem wait_for_running_loop_passive (rs : List GetServerResp) :
    (wait_for_running_loop rs).1.all isPassive = true := by
  induction rs with
  | nil => simp [wait_for_running_loop]
  | cons r rest ih =>
    simp only [wait_for_running_loop]
    cases hgs : get_instance_state r with
    | error e => simp [isPassive]
    | ok s =>
      by_cases hs : s = "running"
      · simp [hs, isPassive]
      · simp [hs, isPassive, ih]

/-- Every event emitted inside the address polling loop is passive. -/
theorem wait_for_ip_loop_passive (iid : String) (rs : List IpListResp) :
    (wait_for_ip_loop iid rs).1.all isPassive = true := by
  induction rs with
  | nil => simp [wait_for_ip_loop]
  | cons r rest ih =>
    simp only [wait_for_ip_loop]
    cases hgs : get_instance_ip iid r with
    | error e => simp [isPassive]
    | ok ipOpt =>
      by_cases hs : strOptTruthy ipOpt = true
      · simp [hs, isPassive]
      · simp only [Bool.not_eq_true] at hs
        simp [hs, isPassive, ih]

/-- The known-hosts cleanup only emits passive events. -/
theorem remove_from_known_hosts_passive (b : Bool) (ip : String) :
    (remove_from_known_hosts b ip).all isPassive = true := by
  cases b <;> simp [remove_from_known_hosts, isPassive]

theorem passive_not_save (e : Event) (h : isPassive e = true) :
    isStateSave e = false := by
  cases e <;> simp_all [isPassive, isStateSave]

theorem passive_not_post (e : Event) (h : isPassive e = true) :
    isPostSaveStep e = false := by
  cases e <;> simp_all [isPassive, isPostSaveStep, isSshExec, isScpTo,
    isScpFrom, isTunnel]

theorem eventsBefore_cons_passive (e : Event) (t : List Event)
    (h : isPassive e = true) :
    eventsBefore isStateSave (e :: t) = e :: eventsBefore isStateSave t := by
  simp [eventsBefore, List.takeWhile_cons, passive_not_save e h]

theorem eventsBefore_append_passive (P t : List Event)
    (hP : P.all isPassive = true) :
    eventsBefore isStateSave (P ++ t) = P ++ eventsBefore isStateSave t := by
  induction P with
  | nil => simp
  | cons e es ih =>
    simp only [List.all_cons, Bool.and_eq_true] at hP
    simp [eventsBefore_cons_passive e _ hP.1, ih hP.2]

theorem eventsBefore_cons_save (iid ip : String) (t : List Event) :
    eventsBefore isStateSave (Event.stateSave iid ip :: t) = [] := by
  simp [eventsBefore, List.takeWhile_cons, isStateSave]

theorem all_not_post_of_passive (l : List Event)
    (h : l.all isPassive = true) :
    l.all (fun e => !isPostSaveStep e) = true := by
  refine all_of_imp h (fun e he => ?_)
  simp [passive_not_post e he]

theorem no_save_of_passive (l : List Event) (h : l.all isPassive = true) :
    l.any isStateSave = false := by
  induction l with
  | nil => simp
  | cons e es ih =>
    simp only [List.all_cons, Bool.and_eq_true] at h
    simp [List.any_cons, passive_not_save e h.1, ih h.2]

/-- The common shape of every post-create `start` trace: one save event,
preceded only by passive events, with an arbitrary suffix `S`. -/
theorem c1_shape (l1 l2 kh S : List Event) (a b c dd iid ip : String)
    (h1 : l1.all isPassive = true) (h2 : l2.all isPassive = true)
    (hkh : kh.all isPassive = true) :
    ((Event.print a :: Event.provCreate :: Event.print b :: Event.print c ::
        (l1 ++ Event.print dd :: (l2 ++ (kh ++ Event.stateSave iid ip :: S)))).any
        isStateSave = true) ∧
    ((eventsBefore isStateSave
        (Event.print a :: Event.provCreate :: Event.print b :: Event.print c ::
          (l1 ++ Event.print dd :: (l2 ++ (kh ++ Event.stateSave iid ip :: S))))).all
        (fun e => !isPostSaveStep e) = true) := by
  constructor
  · simp only [List.any_cons, List.any_append, isStateSave,
      no_save_of_passive _ h1, no_save_of_passive _ h2,
      no_save_of_passive _ hkh, Bool.false_or, Bool.true_or, Bool.or_false]
  · rw [eventsBefore_cons_passive _ _ (by simp [isPassive]),
      eventsBefore_cons_passive _ _ (by simp [isPassive]),
      eventsBefore_cons_passive _ _ (by simp [isPassive]),
      eventsBefore_cons_passive _ _ (by simp [isPassive]),
      eventsBefore_append_passive _ _ h1,
      eventsBefore_cons_passive _ _ (by simp [isPassive]),
      eventsBefore_append_passive _ _ h2,
      eventsBefore_append_passive _ _ hkh,
      eventsBefore_cons_save]
    simp only [List.all_cons, List.all_append, Bool.and_eq_true]
    refine ⟨by simp [isPostSaveStep, isSshExec, isScpTo, isScpFrom, isTunnel],
      by simp [isPostSaveStep, isSshExec, isScpTo, isScpFrom, isTunnel],
      by simp [isPostSaveStep, isSshExec, isScpTo, isScpFrom, isTunnel],
      by simp [isPostSaveStep, isSshExec, isScpTo, isScpFrom, isTunnel],
      all_not_post_of_passive _ h1,
      by simp [isPostSaveStep, isSshExec, isScpTo, isScpFrom, isTunnel],
      all_not_post_of_passive _ h2, all_not_post_of_passive _ hkh, by simp⟩

/-- The regex matches at the head of `tokMid ++ post` and captures exactly
`tokGroup` when `post` does not start with a class character. -/
theorem findTokenFrom_at_occurrence (post : List Char)
    (hp : headIsTokenChar post = false) :
    findTokenFrom (tokMid ++ post) = some tokGroup := by
  cases post with
  | nil => decide
  | cons d ds =>
    simp only [headIsTokenChar, isTokenChar] at hp
    rw [show tokMid ++ d :: ds = 't' :: 'o' :: 'k' :: 'e' :: 'n' :: '=' ::
      ('a' :: 'b' :: 'c' :: '1' :: '2' :: '3' :: 'X' :: 'Y' :: 'Z' :: '_' ::
        '-' :: d :: ds) from rfl]
    simp only [findTokenFrom]
    rw [show matchesHead ('t' :: 'o' :: 'k' :: 'e' :: 'n' :: '=' ::
      ('a' :: 'b' :: 'c' :: '1' :: '2' :: '3' :: 'X' :: 'Y' :: 'Z' :: '_' ::
        '-' :: d :: ds)) = true by
        simp [matchesHead, tokenPat, leadsWith, headIsTokenChar, isTokenChar]]
    simp [List.takeWhile, isTokenChar, hp, tokGroup]

/-- When `token=` occurs nowhere in the text, the scan finds no match. -/
theorem findTokenFrom_of_no_occurrence (l : List Char)
    (h : hasSeq tokenPat l = false) : findTokenFrom l = none := by
  induction l with
  | nil => rfl
  | cons c rest ih =>
    rw [hasSeq, Bool.or_eq_false_iff] at h
    rw [findTokenFrom, show matchesHead (c :: rest) = false by
      simp [matchesHead, h.1], if_neg (by simp)]
    exact ih h.2

/-- The scan returns the group of the occurrence at offset `pre.length`
provided no earlier offset matches. -/
theorem findTokenFrom_leftmost (pre post : List Char)
    (h : ∀ i, i < pre.length → matchesAt (pre ++ (tokMid ++ post)) i = false)
    (hp : headIsTokenChar post = false) :
    findTokenFrom (pre ++ (tokMid ++ post)) = some tokGroup := by
  induction pre with
  | nil => simpa using findTokenFrom_at_occurrence post hp
  | cons c pre' ih =>
    have h0 : matchesHead (c :: (pre' ++ (tokMid ++ post))) = false := by
      have := h 0 (by simp)
      simpa [matchesAt] using this
    rw [List.cons_append]
    simp only [findTokenFrom, h0, Bool.false_eq_true, if_false]
    exact ih (fun i hi => by
      have := h (i + 1) (by simpa using Nat.succ_lt_succ hi)
      simpa [matchesAt] using this)

/-! ## Claims -/

/-- C1, counterexample: on a fully successful oracle, `start` issues a
power-state query (a step after the successful create) strictly before the
Lifecycle Record is persisted, refuting "no step after a successful create
runs while the Lifecycle Record is absent". -/
theorem start_save_not_immediate_counterexample :
    ((start none c1Env).trace.any isStateSave = true) ∧
    ((eventsBefore isStateSave (start none c1Env).trace).any isProvGetServer
      = true) := by
  decide

/-- C1 (corrected): in the start flow the Lifecycle Record (identifier and
address) is persisted only after the power-state and address polling
succeed; from that point on it exists before any remote-shell step
(reachability polling, sync, bootstrap) or the tunnel executes: whenever
`start` gets past create, power and address polling, its trace contains
the save event and no ssh/scp/tunnel event precedes it. -/
theorem start_saves_record_after_address_poll (env : StartEnv)
    (d : List (String × String)) (iid ip : String)
    (h1 : env.createResp.returncode = 0)
    (h2 : env.createResp.stdoutJson = some d)
    (h3 : dictGetE d "id" = .ok iid)
    (h4 : (wait_for_running env.powerResps).2 = .done ())
    (h5 : (wait_for_ip iid env.ipResps).2 = .done ip) :
    ((start none env).trace.any isStateSave = true) ∧
    ((eventsBefore isStateSave (start none env).trace).all
      (fun e => !isPostSaveStep e) = true) := by
  have hw : (wait_for_running_loop env.powerResps).2 = .done () := h4
  have hi : (wait_for_ip_loop iid env.ipResps).2 = .done ip := h5
  simp only [start, load_state, h1, h2, h3, hw, hi, wait_for_running,
    wait_for_ip, wait_for_ssh, save_state, ne_eq, not_true_eq_false,
    if_neg, if_false, List.cons_append, List.append_assoc,
    List.singleton_append, List.nil_append]
  cases hws : (wait_for_ssh_loop ip env.sshResps).2 with
  | raised e =>
    simp only [List.cons_append, List.append_assoc]
    exact c1_shape _ _ _ _ _ _ _ _ _ _
      (wait_for_running_loop_passive _) (wait_for_ip_loop_passive _ _)
      (remove_from_known_hosts_passive _ _)
  | exhausted =>
    simp only [List.cons_append, List.append_assoc]
    exact c1_shape _ _ _ _ _ _ _ _ _ _
      (wait_for_running_loop_passive _) (wait_for_ip_loop_passive _ _)
      (remove_from_known_hosts_passive _ _)
  | done a =>
    by_cases hsetup : env.setupResp.returncode = 0 <;>
      simp only [hsetup, if_true, if_false, ite_true, ite_false,
        not_false_eq_true, not_true_eq_false, List.cons_append,
        List.append_assoc] <;>
      exact c1_shape _ _ _ _ _ _ _ _ _ _
        (wait_for_running_loop_passive _) (wait_for_ip_loop_passive _ _)
        (remove_from_known_hosts_passive _ _)

/-- C1, witness for the corrected statement at the concrete successful
oracle `c1Env`. -/
theorem start_saves_record_after_address_poll_witness :
    ((start none c1Env).trace.any isStateSave = true) ∧
    ((eventsBefore isStateSave (start none c1Env).trace).all
      (fun e => !isPostSaveStep e) = true) :=
  start_saves_record_after_address_poll c1Env [("id", "i-1")] "i-1"
    "10.0.0.5" rfl rfl rfl (by decide) (by decide)

/-- C2 (confirmed): whenever a Lifecycle Record exists, `start` performs
zero provider calls, reports the stored identifier and address, exits with
status 1, and leaves the record (and all other state) unchanged — for
every record content and every oracle. -/
theorem start_idempotency_guard (iid ip : String) (env : StartEnv) :
    start (some ⟨iid, ip⟩) env =
      ⟨[.print ("Instance already exists: " ++ iid ++ " (" ++ ip ++ ")"),
        .print ("Run " ++ sq ++ "stop" ++ sq ++ " first to terminate it.")],
       some ⟨iid, ip⟩, .exited 1⟩ ∧
    (start (some ⟨iid, ip⟩) env).trace.countP (fun e => isProviderCall e)
      = 0 :=
  ⟨rfl, rfl⟩

/-- C3 (confirmed): for every initial state holding a Lifecycle Record and
every oracle (covering success and failure of the bulk download, the
provider stop and the provider delete), `stop` ends with no record, returns
normally, and the record deletion is followed only by the final
confirmation print — it is the unconditional last step of teardown. -/
theorem stop_always_clears_record (rec : StateRec) (env : StopEnv) :
    ((stop (some rec) env).store = none) ∧
    ((stop (some rec) env).outcome = .finished) ∧
    ((eventsFrom isStateDelete (stop (some rec) env).trace) =
      [Event.stateDelete,
       Event.print "Instance deleted. State cleared."]) := by
  refine ⟨rfl, rfl, ?_⟩
  simp only [stop, load_state, download_work_dir, remove_from_known_hosts,
    eventsFrom]
  split_ifs <;> simp [isStateDelete]

/-- C4 (confirmed): in every teardown run whose Lifecycle Record holds a
(truthy) network address, the bulk-download transport activity occurs, the
destructive provider calls occur, and every download transport event
precedes the first destructive call — for every outcome of the download. -/
theorem download_before_destroy (rec : StateRec) (env : StopEnv)
    (hip : rec.ip ≠ "") :
    ((stop (some rec) env).trace.any isDlTransport = true) ∧
    ((stop (some rec) env).trace.any isDestroyCall = true) ∧
    ((eventsFrom isDestroyCall (stop (some rec) env).trace).all
      (fun e => !isDlTransport e) = true) := by
  simp only [stop, load_state, if_pos hip, download_work_dir,
    remove_from_known_hosts, eventsFrom]
  split_ifs <;>
    simp [isDlTransport, isDestroyCall, isSshExec, isScpFrom]

/-- C4, witness at a concrete record and oracle. -/
theorem download_before_destroy_witness :
    ((stop (some ⟨"i-1", "10.0.0.5"⟩)
        ⟨⟨⟨0, "exists", ""⟩, ⟨0⟩⟩, false, ⟨0, ""⟩, ⟨0, ""⟩⟩).trace.any
      isDlTransport = true) ∧
    ((stop (some ⟨"i-1", "10.0.0.5"⟩)
        ⟨⟨⟨0, "exists", ""⟩, ⟨0⟩⟩, false, ⟨0, ""⟩, ⟨0, ""⟩⟩).trace.any
      isDestroyCall = true) ∧
    ((eventsFrom isDestroyCall
        (stop (some ⟨"i-1", "10.0.0.5"⟩)
          ⟨⟨⟨0, "exists", ""⟩, ⟨0⟩⟩, false, ⟨0, ""⟩, ⟨0, ""⟩⟩).trace).all
      (fun e => !isDlTransport e) = true) :=
  download_before_destroy ⟨"i-1", "10.0.0.5"⟩
    ⟨⟨⟨0, "exists", ""⟩, ⟨0⟩⟩, false, ⟨0, ""⟩, ⟨0, ""⟩⟩ (by decide)

/-- C5, counterexample: in the power-state polling loop a transport-level
error (non-zero exit, unparseable stdout) raises an uncaught JSON decode
exception instead of sleeping and retrying, while a genuine "not yet
ready" response sleeps and retries — the two are distinguishable, refuting
"treated identically in every polling loop". -/
theorem power_poll_transport_error_counterexample :
    (wait_for_running_loop [⟨1, none⟩] =
      ([.provGetServer], .raised .jsonDecodeError)) ∧
    (wait_for_running_loop [⟨1, some [("state", "pending")]⟩] =
      ([.provGetServer, .print ".", .sleep 5], .exhausted)) :=
  ⟨rfl, rfl⟩

/-- C5 (corrected): in the address-assignment and shell-reachability
polling loops a transport-level error (non-zero exit code) is treated
identically to "not yet ready" — print a dot, sleep 5, retry; in the
power-state polling loop, however, a transport-level error whose stdout is
not valid JSON raises an uncaught JSON decode exception that aborts the
flow instead of retrying. -/
theorem poll_transport_error_handling :
    (∀ (r : GetServerResp) (rest : List GetServerResp),
       r.stdoutJson = none →
       wait_for_running_loop (r :: rest) =
         ([.provGetServer], .raised .jsonDecodeError)) ∧
    (∀ (iid : String) (r : IpListResp) (rest : List IpListResp),
       r.returncode ≠ 0 →
       wait_for_ip_loop iid (r :: rest) =
         (.provIpList :: .print "." :: .sleep 5 ::
            (wait_for_ip_loop iid rest).1,
          (wait_for_ip_loop iid rest).2)) ∧
    (∀ (ip : String) (r : SshResp) (rest : List SshResp),
       r.returncode ≠ 0 →
       wait_for_ssh_loop ip (r :: rest) =
         (.sshExec ip "echo ok" :: .print "." :: .sleep 5 ::
            (wait_for_ssh_loop ip rest).1,
          (wait_for_ssh_loop ip rest).2)) := by
  refine ⟨fun r rest h => ?_, fun iid r rest h => ?_, fun ip r rest h => ?_⟩
  · simp [wait_for_running_loop, get_instance_state, h]
  · simp [wait_for_ip_loop, get_instance_ip, h, strOptTruthy]
  · simp [wait_for_ssh_loop, h]

/-- C5, witness for the corrected statement at concrete error responses. -/
theorem poll_transport_error_handling_witness :
    (wait_for_running_loop [(⟨1, none⟩ : GetServerResp)] =
      ([.provGetServer], .raised .jsonDecodeError)) ∧
    (wait_for_ip_loop "i-1" [(⟨1, none⟩ : IpListResp)] =
      (.provIpList :: .print "." :: .sleep 5 ::
         (wait_for_ip_loop "i-1" []).1, (wait_for_ip_loop "i-1" []).2)) ∧
    (wait_for_ssh_loop "10.0.0.5" [(⟨255, "", ""⟩ : SshResp)] =
      (.sshExec "10.0.0.5" "echo ok" :: .print "." :: .sleep 5 ::
         (wait_for_ssh_loop "10.0.0.5" []).1,
       (wait_for_ssh_loop "10.0.0.5" []).2)) :=
  ⟨poll_transport_error_handling.1 ⟨1, none⟩ [] rfl,
   poll_transport_error_handling.2.1 "i-1" ⟨1, none⟩ [] (by decide),
   poll_transport_error_handling.2.2 "10.0.0.5" ⟨255, "", ""⟩ []
     (by decide)⟩

/-- C6 (confirmed): for every N, with the provider answering "pending" N
times and then "running", the power-state loop terminates successfully
with the trace query, (".", sleep 5, query) repeated N times, " Ready!" —
exactly N+1 queries with a fixed 5-unit sleep between consecutive queries
and no orchestrator-imposed attempt cap (the statement holds for all N). -/
theorem power_poll_exact_queries (N : Nat) :
    (wait_for_running_loop (List.replicate N pendingResp ++ [runningResp]) =
      ((List.replicate N
          ([.provGetServer, .print ".", .sleep 5] : List Event)).flatten ++
        [.provGetServer, .print " Ready!"], .done ())) ∧
    ((wait_for_running_loop
        (List.replicate N pendingResp ++ [runningResp])).1.countP
      (fun e => isProvGetServer e) = N + 1) := by
  constructor
  · induction N with
    | zero => rfl
    | succ n ih =>
      simp only [List.replicate_succ, List.cons_append, List.flatten_cons]
      rw [wait_for_running_loop]
      simp only [show get_instance_state pendingResp = .ok "pending" from
        rfl]
      simp [ih]
  · induction N with
    | zero => rfl
    | succ n ih =>
      simp only [List.replicate_succ, List.cons_append]
      rw [wait_for_running_loop]
      simp only [show get_instance_state pendingResp = .ok "pending" from
        rfl]
      simp only [show ("pending" = "running") = False by simp, if_false]
      simp [List.countP_cons, ih,
        show isProvGetServer Event.provGetServer = true from rfl,
        show isProvGetServer (Event.print ".") = false from rfl,
        show isProvGetServer (Event.sleep 5) = false from rfl]

/-- C7, counterexample: an output that contains `token=abc123XYZ_-`
followed by a non-class character still yields the earlier match `a`, not
`abc123XYZ_-` — `re.search` takes the leftmost match, refuting the claim
as universally stated. -/
theorem token_extraction_counterexample :
    (containsSubstr "token=abc123XYZ_- " "token=a token=abc123XYZ_- x"
      = true) ∧
    (extract_jupyter_token "token=a token=abc123XYZ_- x" = "a") ∧
    (extract_jupyter_token "token=a token=abc123XYZ_- x" ≠ "abc123XYZ_-")
    := by
  decide

/-- C7 (corrected): the token-extraction function returns exactly
`abc123XYZ_-` for any output containing `token=abc123XYZ_-` followed by a
character outside `[a-zA-Z0-9_-]` (or end of text), provided that
occurrence is the leftmost match of the pattern (no earlier offset
matches); for any output with no `token=` substring it returns the empty
string without error. -/
theorem token_extraction_leftmost :
    (∀ pre post : List Char,
        (∀ i, i < pre.length →
          matchesAt (pre ++ (tokMid ++ post)) i = false) →
        headIsTokenChar post = false →
        extract_jupyter_token (String.mk (pre ++ (tokMid ++ post))) =
          "abc123XYZ_-") ∧
    (∀ s : String, containsSubstr "token=" s = false →
        extract_jupyter_token s = "") := by
  constructor
  · intro pre post h hp
    have hf := findTokenFrom_leftmost pre post h hp
    have hd : (String.mk (pre ++ (tokMid ++ post))).data =
        pre ++ (tokMid ++ post) := rfl
    simp only [extract_jupyter_token, hd, hf]
    rfl
  · intro s hs
    have hts : hasSeq tokenPat s.data = false := hs
    simp [extract_jupyter_token, findTokenFrom_of_no_occurrence s.data hts]

/-- C7, witness for the corrected statement: a log line whose leftmost
match is the expected occurrence, and a log with no token at all. -/
theorem token_extraction_leftmost_witness :
    (extract_jupyter_token
      (String.mk (['x', ' '] ++ (tokMid ++ [' ']))) = "abc123XYZ_-") ∧
    (extract_jupyter_token "hello" = "") :=
  ⟨token_extraction_leftmost.1 ['x', ' '] [' '] (by decide) (by decide),
   token_extraction_leftmost.2 "hello" (by decide)⟩

/-- C8 (confirmed): with an existing Lifecycle Record, single-path upload
issues exactly one copy whose recursive flag is set iff the local path is
a directory (local inspection); single-path download issues exactly one
copy whose recursive flag is set iff the remote `test -d` output reports
"isdir"; and a non-zero transfer exit code makes either operation
terminate with status 1. -/
theorem single_transfer_behaviour :
    (∀ (rec : StateRec) (fn : String) (env : UploadEnv),
       env.localKind ≠ .missing →
       scpToFlags ((upload (some rec) fn env).trace) =
         [decide (env.localKind = LocalKind.dir)]) ∧
    (∀ (rec : StateRec) (fn : String) (env : DownloadEnv),
       scpFromFlags ((download (some rec) fn env).trace) =
         [containsSubstr "isdir" env.checkResp.stdout]) ∧
    (∀ (rec : StateRec) (fn : String) (env : UploadEnv),
       env.localKind ≠ .missing → env.scpResp.returncode ≠ 0 →
       (upload (some rec) fn env).outcome = .exited 1) ∧
    (∀ (rec : StateRec) (fn : String) (env : DownloadEnv),
       env.scpResp.returncode ≠ 0 →
       (download (some rec) fn env).outcome = .exited 1) := by
  refine ⟨fun rec fn env h => ?_, fun rec fn env => ?_,
    fun rec fn env h hrc => ?_, fun rec fn env hrc => ?_⟩
  · simp only [upload, load_state, if_neg h]
    split_ifs <;> simp [scpToFlags]
  · simp only [download, load_state]
    split_ifs <;> simp [scpFromFlags]
  · simp [upload, load_state, if_neg h, hrc]
  · simp [download, load_state, hrc]

/-- C8, witness at concrete records, filenames and oracles: a directory
upload, a file-reported download, and failing transfers. -/
theorem single_transfer_behaviour_witness :
    (scpToFlags ((upload (some ⟨"i-1", "10.0.0.5"⟩) "data"
        ⟨LocalKind.dir, ⟨0, "", ""⟩, ⟨0⟩⟩).trace) = [true]) ∧
    (scpFromFlags ((download (some ⟨"i-1", "10.0.0.5"⟩) "out.txt"
        ⟨⟨0, "", ""⟩, ⟨0⟩⟩).trace) = [false]) ∧
    ((upload (some ⟨"i-1", "10.0.0.5"⟩) "data"
        ⟨LocalKind.file, ⟨0, "", ""⟩, ⟨1⟩⟩).outcome = .exited 1) ∧
    ((download (some ⟨"i-1", "10.0.0.5"⟩) "out.txt"
        ⟨⟨0, "", ""⟩, ⟨1⟩⟩).outcome = .exited 1) :=
  ⟨single_transfer_behaviour.1 ⟨"i-1", "10.0.0.5"⟩ "data"
     ⟨LocalKind.dir, ⟨0, "", ""⟩, ⟨0⟩⟩ (by decide),
   single_transfer_behaviour.2.1 ⟨"i-1", "10.0.0.5"⟩ "out.txt"
     ⟨⟨0, "", ""⟩, ⟨0⟩⟩,
   single_transfer_behaviour.2.2.1 ⟨"i-1", "10.0.0.5"⟩ "data"
     ⟨LocalKind.file, ⟨0, "", ""⟩, ⟨1⟩⟩ (by decide) (by decide),
   single_transfer_behaviour.2.2.2 ⟨"i-1", "10.0.0.5"⟩ "out.txt"
     ⟨⟨0, "", ""⟩, ⟨1⟩⟩ (by decide)⟩

/-- C9 (confirmed): the persisted-state store round-trips — loading right
after saving `(id, ip)` returns the record with that identifier and
address, and loading after deleting (from any prior state) returns the
absent-record result. -/
theorem state_store_roundtrip :
    (∀ (iid ip : String) (s : Store),
       load_state (save_state iid ip s) = some ⟨iid, ip⟩) ∧
    (∀ s : Store, load_state (delete_state s) = none) :=
  ⟨fun _ _ _ => rfl, fun _ => rfl⟩

/-- C10 (confirmed): with a Lifecycle Record present but
`./work/<filename>` absent, single-path upload prints an error and exits
with status 1 before issuing any remote command or transfer; the stored
record is unchanged and the trace contains no ssh or scp event. -/
theorem upload_missing_local_aborts (rec : StateRec) (fn : String)
    (env : UploadEnv) (h : env.localKind = .missing) :
    (upload (some rec) fn env =
      ⟨[.print ("Error: " ++ (LOCAL_WORK_DIR ++ "/" ++ fn) ++
          " does not exist.")], some rec, .exited 1⟩) ∧
    ((upload (some rec) fn env).trace.any
      (fun e => isSshExec e || isScpTo e || isScpFrom e) = false) := by
  constructor
  · simp [upload, load_state, h]
  · simp [upload, load_state, h, isSshExec, isScpTo, isScpFrom]

/-- C10, witness at a concrete record, filename and oracle. -/
theorem upload_missing_local_aborts_witness :
    (upload (some ⟨"i-1", "10.0.0.5"⟩) "notes.txt"
        ⟨LocalKind.missing, ⟨0, "", ""⟩, ⟨0⟩⟩ =
      ⟨[.print ("Error: " ++ (LOCAL_WORK_DIR ++ "/" ++ "notes.txt") ++
          " does not exist.")], some ⟨"i-1", "10.0.0.5"⟩, .exited 1⟩) ∧
    ((upload (some ⟨"i-1", "10.0.0.5"⟩) "notes.txt"
        ⟨LocalKind.missing, ⟨0, "", ""⟩, ⟨0⟩⟩).trace.any
      (fun e => isSshExec e || isScpTo e || isScpFrom e) = false) :=
  upload_missing_local_aborts ⟨"i-1", "10.0.0.5"⟩ "notes.txt"
    ⟨LocalKind.missing, ⟨0, "", ""⟩, ⟨0⟩⟩ (by decide)

end Scw
